import Mathlib

/-!
Verification of the identity-resolution and session-authentication core of
the book-collection API: the Google login verify callback, the passport
session serialization, and the request gates (tokenAuth and requireAuth).
All definitions are shallow embeddings of the JavaScript sources.
-/

namespace BookApi

/-- Identity record stored in MongoDB, following userSchema in
src/models/User.js: googleId is optional (sparse), username and email are
required and unique, displayName is required, profileImage is optional. -/
structure User where
  id : Nat
  googleId : Option String
  username : String
  email : String
  displayName : String
  profileImage : String
deriving Repr, DecidableEq

/-- Google profile as delivered to the GoogleStrategy verify callback:
profile.id, profile.displayName, profile.emails (list of values) and
profile.photos (list of values). -/
structure Profile where
  id : String
  displayName : String
  emails : List String
  photos : List String
deriving Repr, DecidableEq

/-- The Identity collection together with the id the next inserted document
will receive. -/
structure Store where
  users : List User
  nextId : Nat
deriving Repr, DecidableEq

/-- User.findOne with filter on googleId. -/
def findOneByGoogleId (s : Store) (gid : String) : Option User :=
  s.users.find? (fun u => u.googleId == some gid)

/-- User.findOne with filter on email. -/
def findOneByEmail (s : Store) (e : String) : Option User :=
  s.users.find? (fun u => u.email == e)

/-- User.findById. -/
def findById (s : Store) (i : Nat) : Option User :=
  s.users.find? (fun u => u.id == i)

/-- user.save() on a document fetched from the store: the stored document
with the same id is replaced by the updated document. -/
def saveUser (s : Store) (u : User) : Store :=
  { s with users := s.users.map (fun w => if w.id == u.id then u else w) }

/-- Errors that can reach the catch block of the verify callback: the
TypeError raised by profile.emails[0].value when no email is present, and a
MongoDB duplicate-key error on one of the unique fields. -/
inductive JsError where
  | typeErrorNoEmail
  | duplicateKey (field : String)
deriving Repr, DecidableEq

/-- user.save() on a freshly constructed document: fails with a
duplicate-key error when the unique email or username constraint of
src/models/User.js is violated, otherwise appends the document. -/
def insertUser (s : Store) (u : User) : Except JsError Store :=
  if s.users.any (fun w => w.email == u.email) then
    Except.error (JsError.duplicateKey "email")
  else if s.users.any (fun w => w.username == u.username) then
    Except.error (JsError.duplicateKey "username")
  else
    Except.ok { users := s.users ++ [u], nextId := s.nextId + 1 }

/-- email.split(at-sign)[0], the local part of the email address. -/
def localPart (email : String) : String :=
  (email.splitOn "@").headD ""

/-- The document built by new User({...}) in the creation path of the
verify callback (src/unnamed/part_000, lines 67-74). -/
def newUserFor (s : Store) (p : Profile) (email : String) : User :=
  { id := s.nextId
  , googleId := some p.id
  , displayName := p.displayName
  , email := email
  , username := localPart email
  , profileImage := p.photos.headD "" }

/-- Creation path of the verify callback together with its catch block
(src/unnamed/part_000, lines 67-84): insert the new user; on success the
new user is returned via done(null, user); any error thrown by save is
passed to done(error, null). -/
def createPath (s : Store) (p : Profile) (email : String) :
    Except JsError (Store × User) :=
  match insertUser s (newUserFor s p email) with
  | Except.ok s2 => Except.ok (s2, newUserFor s p email)
  | Except.error e => Except.error e

/-- Storage operations the verify callback can issue, in the order it
issues them. -/
inductive DbOp where
  | findByGoogleId (gid : String)
  | findByEmail (email : String)
  | save (u : User)
  | insert (u : User)
deriving Repr, DecidableEq

/-- The GoogleStrategy verify callback of src/unnamed/part_000
(lines 43-85): look up by googleId and return at once on a hit; otherwise
read profile.emails[0].value (a TypeError reaches the catch block when no
email is present); otherwise look up by email and, on a hit, set googleId
to profile.id, save and return; otherwise create a new user. -/
def verify (s : Store) (p : Profile) : Except JsError (Store × User) :=
  match findOneByGoogleId s p.id with
  | some user => Except.ok (s, user)
  | none =>
    match p.emails with
    | [] => Except.error JsError.typeErrorNoEmail
    | email :: _ =>
      match findOneByEmail s email with
      | some user =>
          let linked := { user with googleId := some p.id }
          Except.ok (saveUser s linked, linked)
      | none => createPath s p email

/-- The sequence of storage operations the verify callback issues, in
source order: the googleId lookup always runs first; the email lookup runs
only when the googleId lookup misses and an email is present; the save or
insert comes last. -/
def verifyOps (s : Store) (p : Profile) : List DbOp :=
  DbOp.findByGoogleId p.id ::
    match findOneByGoogleId s p.id with
    | some _ => []
    | none =>
      match p.emails with
      | [] => []
      | email :: _ =>
        DbOp.findByEmail email ::
          match findOneByEmail s email with
          | some user => [DbOp.save { user with googleId := some p.id }]
          | none => [DbOp.insert (newUserFor s p email)]

/-- Values a passport serializeUser implementation in this repository can
hand to the session store: the user id alone, or a whole profile object. -/
inductive SessionValue where
  | idOnly (i : Nat)
  | fullProfile (p : Profile)
deriving Repr, DecidableEq

/-- SessionValue.isIdOnly is true exactly on the id-only payload. -/
def SessionValue.isIdOnly : SessionValue → Bool
  | SessionValue.idOnly _ => true
  | SessionValue.fullProfile _ => false

/-- The SessionPayload produced by serializeUser of src/unnamed/part_000:
done(null, user.id) hands the session store exactly the user id. -/
def encodeSession (u : User) : Nat := u.id

/-- serializeUser of src/unnamed/part_000, as a session-store value. -/
def serializeUser_part000 (u : User) : SessionValue :=
  SessionValue.idOnly (encodeSession u)

/-- serializeUser of src/config/passport.js, the configuration loaded by
src/server.js: done(null, user) stores the whole object, which for that
configuration is the Google profile returned by its verify callback. -/
def serializeUser_config (p : Profile) : SessionValue :=
  SessionValue.fullProfile p

/-- deserializeUser of src/unnamed/part_000: User.findById(id); when the
user no longer exists, findById yields null and done(null, null) makes
passport treat the session as unauthenticated. -/
def deserializeUser_part000 (s : Store) (i : Nat) : Option User :=
  findById s i

/-- An incoming HTTP request as the gates see it: the X-API-Token header,
the apiToken query parameter, and the SessionPayload stored for its
session, when one exists. -/
structure Request where
  headerToken : Option String
  queryToken : Option String
  sessionUserId : Option Nat
deriving Repr, DecidableEq

/-- The token extraction of src/middleware/tokenAuth.js, line 6: the
JavaScript expression header or-else query falls through to the query
parameter when the header is absent or the empty string. -/
def extractToken (r : Request) : Option String :=
  match r.headerToken with
  | some t => if t = "" then r.queryToken else some t
  | none => r.queryToken

/-- The req.user value a gate attaches before calling next(): the fixed
synthetic object of the bypass branch, or the stored user deserialized
from the session. -/
inductive GateUser where
  | synthetic (id displayName email : String)
  | fromSession (u : User)
deriving Repr, DecidableEq

/-- JSON values appearing in the 401 bodies of the two gates. -/
inductive JVal where
  | str (v : String)
  | bool (v : Bool)
  | arr (vs : List String)
deriving Repr, DecidableEq

/-- A JSON object as a list of key-value pairs. -/
abbrev Json := List (String × JVal)

/-- Outcome of a gate middleware: next() with the attached req.user, or a
short-circuit response with a status and a JSON body. -/
inductive GateResult where
  | next (u : GateUser)
  | reject (status : Nat) (body : Json)
deriving Repr, DecidableEq

/-- req.isAuthenticated() as produced by passport.session with the
part_000 deserializeUser: the session payload, when present, is expanded
through findById; a missing user leaves the request unauthenticated. -/
def sessionUser (s : Store) (r : Request) : Option User :=
  match r.sessionUserId with
  | none => none
  | some i => deserializeUser_part000 s i

/-- The 401 body of src/middleware/tokenAuth.js, lines 29-37. -/
def tokenAuth401Body : Json :=
  [ ("success", JVal.bool false)
  , ("message", JVal.str "Authentication required")
  , ("options", JVal.arr
      [ "Log in at /auth/google"
      , "Or use test token: X-API-Token: test-token-123" ]) ]

/-- src/middleware/tokenAuth.js: if the extracted token equals
test-token-123, attach the fixed synthetic user and call next(); else if
the session authenticates, call next(); else respond 401. The store is
returned unchanged: the middleware performs no storage writes. -/
def tokenAuth (s : Store) (r : Request) : GateResult × Store :=
  if extractToken r = some "test-token-123" then
    (GateResult.next
      (GateUser.synthetic "test-user-123" "API Test User" "test@example.com"), s)
  else
    match sessionUser s r with
    | some u => (GateResult.next (GateUser.fromSession u), s)
    | none => (GateResult.reject 401 tokenAuth401Body, s)

/-- The 401 body of requireAuth in src/server.js, lines 134-139. -/
def requireAuth401Body : Json :=
  [ ("success", JVal.bool false)
  , ("message", JVal.str "Unauthorized: Please log in to access this resource")
  , ("loginUrl", JVal.str "/auth/google")
  , ("authenticated", JVal.bool false) ]

/-- requireAuth of src/server.js, lines 125-142: next() when the session
authenticates, otherwise a 401 response. No storage writes. -/
def requireAuth (s : Store) (r : Request) : GateResult × Store :=
  match sessionUser s r with
  | some u => (GateResult.next (GateUser.fromSession u), s)
  | none => (GateResult.reject 401 requireAuth401Body, s)

/-! Concrete stores and profiles used as counterexamples and witnesses. -/

/-- Stored identity for claim C1: email b at x.com, googleId already g2. -/
def c1User : User :=
  { id := 0, googleId := some "g2", username := "b", email := "b@x.com"
  , displayName := "B", profileImage := "" }

/-- Store for claim C1. -/
def c1Store : Store := { users := [c1User], nextId := 1 }

/-- Assertion for claim C1: googleId g3, same email. -/
def c1Profile : Profile :=
  { id := "g3", displayName := "B", emails := ["b@x.com"], photos := [] }

/-- C1, counterexample: the stored identity has googleId g2; a login with
googleId g3 and the same email does not fail with any error and does not
leave the record unchanged — the verify callback overwrites googleId with
g3, saves, and returns the user via done(null, user). -/
theorem c1_counterexample :
    c1User.googleId = some "g2" ∧
    verify c1Store c1Profile =
      Except.ok
        ({ users := [{ c1User with googleId := some "g3" }], nextId := 1 },
         { c1User with googleId := some "g3" }) := by
  constructor
  · rfl
  · rfl

/-- C1, amended: when the googleId lookup misses and the email lookup
finds an identity whose googleId is already set to a value different from
the profile id, the verify callback raises no error: it overwrites
googleId with the profile id, persists the record and returns it. -/
theorem c1_theorem (s : Store) (p : Profile) (e : String) (es : List String)
    (u : User) (g : String)
    (h1 : findOneByGoogleId s p.id = none)
    (h2 : p.emails = e :: es)
    (h3 : findOneByEmail s e = some u)
    (_h4 : u.googleId = some g)
    (_h5 : g ≠ p.id) :
    verify s p =
      Except.ok (saveUser s { u with googleId := some p.id },
                 { u with googleId := some p.id }) := by
  unfold verify
  rw [h1, h2]
  dsimp only
  rw [h3]

/-- C1, witness: the amended theorem applied to the concrete C1 scenario. -/
theorem c1_witness :
    verify c1Store c1Profile =
      Except.ok (saveUser c1Store { c1User with googleId := some "g3" },
                 { c1User with googleId := some "g3" }) :=
  c1_theorem c1Store c1Profile "b@x.com" [] c1User "g2"
    (by decide) (by decide) (by decide) (by decide) (by decide)

/-- Store for claim C2, as it stands at insert time after a concurrent
login already created the account for a at x.com. -/
def c2Store : Store :=
  { users := [{ id := 0, googleId := some "g1", username := "a"
              , email := "a@x.com", displayName := "Ann", profileImage := "" }]
  , nextId := 1 }

/-- Assertion for claim C2. -/
def c2Profile : Profile :=
  { id := "g9", displayName := "Al", emails := ["a@x.com"], photos := [] }

/-- C2, counterexample: running the creation path against a store in which
the email was concurrently inserted (the race the claim is about), the
insert fails with the email uniqueness violation and the catch block
propagates that error to the caller — there is no re-read returning the
now-existing record. -/
theorem c2_counterexample :
    createPath c2Store c2Profile "a@x.com" =
      Except.error (JsError.duplicateKey "email") := by
  rfl

/-- C2, amended: whenever the insert of the creation path fails with a
uniqueness violation, the verify callback propagates exactly that error to
its caller through done(error, null); it performs no re-read. -/
theorem c2_theorem (s : Store) (p : Profile) (e : String) (err : JsError)
    (h : insertUser s (newUserFor s p e) = Except.error err) :
    createPath s p e = Except.error err := by
  unfold createPath
  rw [h]

/-- C2, witness: the amended theorem applied to the concrete C2 race. -/
theorem c2_witness :
    createPath c2Store c2Profile "a@x.com" =
      Except.error (JsError.duplicateKey "email") :=
  c2_theorem c2Store c2Profile "a@x.com" (JsError.duplicateKey "email") rfl

/-- Stored identity for claim C3, displayName Ann. -/
def c3User : User :=
  { id := 0, googleId := some "g1", username := "a", email := "a@x.com"
  , displayName := "Ann", profileImage := "" }

/-- Store for claim C3. -/
def c3Store : Store := { users := [c3User], nextId := 1 }

/-- Assertion for claim C3: same googleId, new displayName Ann K. -/
def c3Profile : Profile :=
  { id := "g1", displayName := "Ann K.", emails := ["a@x.com"], photos := [] }

/-- C3, counterexample: the fast path returns the stored record with its
old displayName Ann, not the profile displayName Ann K., and leaves the
store untouched — the claimed displayName and avatarUrl update does not
happen. -/
theorem c3_counterexample :
    verify c3Store c3Profile = Except.ok (c3Store, c3User) ∧
    c3User.displayName = "Ann" ∧ c3Profile.displayName = "Ann K." := by
  refine ⟨rfl, rfl, rfl⟩

/-- C3, amended: when the googleId lookup finds an identity, the verify
callback returns that record unchanged and creates no new record; it does
not update displayName or profileImage, and the googleId lookup is the
only storage operation issued. -/
theorem c3_theorem (s : Store) (p : Profile) (u : User)
    (h : findOneByGoogleId s p.id = some u) :
    verify s p = Except.ok (s, u) ∧
    verifyOps s p = [DbOp.findByGoogleId p.id] := by
  constructor
  · unfold verify
    rw [h]
  · unfold verifyOps
    rw [h]

/-- C3, witness: the amended theorem applied to the concrete C3 scenario. -/
theorem c3_witness :
    verify c3Store c3Profile = Except.ok (c3Store, c3User) ∧
    verifyOps c3Store c3Profile = [DbOp.findByGoogleId "g1"] :=
  c3_theorem c3Store c3Profile c3User (by decide)

/-- Stored identity for claim C4. -/
def c4User : User :=
  { id := 3, googleId := some "g4", username := "d", email := "d@x.com"
  , displayName := "Dee", profileImage := "" }

/-- Store for claim C4. -/
def c4Store : Store := { users := [c4User], nextId := 4 }

/-- Assertion for claim C4. -/
def c4Profile : Profile :=
  { id := "g4", displayName := "Dee", emails := ["d@x.com"], photos := [] }

/-- C4: the verify callback issues its storage operations in the fixed
source order — the googleId lookup always comes first; when it hits, the
found user is returned at once and neither the email lookup nor an insert
is issued; when it misses and an email is present, the email lookup comes
second, followed by exactly one save (email hit) or one insert (email
miss). -/
theorem c4_theorem (s : Store) (p : Profile) :
    (verifyOps s p).take 1 = [DbOp.findByGoogleId p.id] ∧
    (∀ u, findOneByGoogleId s p.id = some u →
       verify s p = Except.ok (s, u) ∧
       verifyOps s p = [DbOp.findByGoogleId p.id]) ∧
    (∀ e es, findOneByGoogleId s p.id = none → p.emails = e :: es →
       verifyOps s p =
         DbOp.findByGoogleId p.id :: DbOp.findByEmail e ::
           (match findOneByEmail s e with
            | some u => [DbOp.save { u with googleId := some p.id }]
            | none => [DbOp.insert (newUserFor s p e)])) := by
  refine ⟨rfl, ?_, ?_⟩
  · intro u h
    constructor
    · unfold verify
      rw [h]
    · unfold verifyOps
      rw [h]
  · intro e es h1 h2
    unfold verifyOps
    rw [h1, h2]

/-- C4, witness: on the concrete returning-user scenario the fast path
returns the stored user and issues only the googleId lookup. -/
theorem c4_witness :
    verify c4Store c4Profile = Except.ok (c4Store, c4User) ∧
    verifyOps c4Store c4Profile = [DbOp.findByGoogleId "g4"] :=
  (c4_theorem c4Store c4Profile).2.1 c4User (by decide)

/-- Profile for claim C5. -/
def c5Profile : Profile :=
  { id := "g1", displayName := "Ann", emails := ["a@x.com"], photos := [] }

/-- C5, counterexample: with the passport configuration that
src/server.js actually loads (src/config/passport.js), the value handed to
the session store is the whole profile object, not an identity id. -/
theorem c5_counterexample :
    serializeUser_config c5Profile = SessionValue.fullProfile c5Profile ∧
    SessionValue.isIdOnly (serializeUser_config c5Profile) = false := by
  exact ⟨rfl, rfl⟩

/-- C5, amended: the part_000 passport configuration persists exactly the
user id in the session; the configuration loaded by src/server.js
(src/config/passport.js) persists the entire profile object instead.
Neither serializer receives or stores provider tokens: the access and
refresh tokens never leave the verify callback. -/
theorem c5_theorem :
    (∀ u : User, serializeUser_part000 u = SessionValue.idOnly u.id) ∧
    (∀ p : Profile, serializeUser_config p = SessionValue.fullProfile p) := by
  exact ⟨fun _ => rfl, fun _ => rfl⟩

/-- Identity for claim C6 at encode time. -/
def c6User : User :=
  { id := 5, googleId := some "g6", username := "e", email := "e@x.com"
  , displayName := "Eve", profileImage := "" }

/-- The same identity after unrelated fields changed between encode and
decode: displayName, email and profileImage all differ, only id is kept. -/
def c6Changed : User :=
  { id := 5, googleId := some "g6", username := "e", email := "new@x.com"
  , displayName := "Eve N.", profileImage := "pic" }

/-- Store at decode time for claim C6. -/
def c6Store : Store := { users := [c6Changed], nextId := 6 }

/-- C6: if any stored user still carries the encoded id — no matter how
the other fields of the identity changed between encode and decode — then
deserializeUser resolves the payload produced by serializeUser to a user
with the same id as the original. -/
theorem c6_theorem (u : User) (s2 : Store)
    (h : ∃ w ∈ s2.users, w.id = u.id) :
    ∃ u2, deserializeUser_part000 s2 (encodeSession u) = some u2 ∧
      u2.id = u.id := by
  obtain ⟨w, hw, hid⟩ := h
  have hsome : (s2.users.find? (fun x => x.id == encodeSession u)).isSome := by
    rw [List.find?_isSome]
    exact ⟨w, hw, by simp [encodeSession, hid]⟩
  obtain ⟨u2, hu2⟩ := Option.isSome_iff_exists.mp hsome
  refine ⟨u2, hu2, ?_⟩
  have hp := List.find?_some hu2
  simpa [encodeSession] using hp

/-- C6, witness: the round trip on the concrete identity whose email,
displayName and profileImage all changed in the meantime. -/
theorem c6_witness :
    ∃ u2, deserializeUser_part000 c6Store (encodeSession c6User) = some u2 ∧
      u2.id = c6User.id :=
  c6_theorem c6User c6Store ⟨c6Changed, by decide, by decide⟩

/-- Stored identity for claim C7: googleId g1 already linked. -/
def c7User : User :=
  { id := 0, googleId := some "g1", username := "a", email := "a@x.com"
  , displayName := "Ann", profileImage := "" }

/-- Store for claim C7. -/
def c7Store : Store := { users := [c7User], nextId := 1 }

/-- Profile for claim C7: a known googleId but no email at all. -/
def c7Profile : Profile :=
  { id := "g1", displayName := "Ann", emails := [], photos := [] }

/-- Empty store used for the C7 witness. -/
def c7EmptyStore : Store := { users := [], nextId := 0 }

/-- Profile with no email over an unknown googleId, for the C7 witness. -/
def c7MissProfile : Profile :=
  { id := "g9", displayName := "Nob", emails := [], photos := [] }

/-- C7, counterexample: a profile that lacks an email is not rejected at
the boundary — the googleId lookup has already run inside the resolver,
and because it hits, the login succeeds despite the missing email. -/
theorem c7_counterexample :
    c7Profile.emails = [] ∧
    verify c7Store c7Profile = Except.ok (c7Store, c7User) ∧
    verifyOps c7Store c7Profile = [DbOp.findByGoogleId "g1"] := by
  exact ⟨rfl, rfl, rfl⟩

/-- C7, amended: a missing email makes the login fail (with the TypeError
from profile.emails[0].value, caught and passed to done) only when the
googleId lookup misses; when the googleId lookup hits, the login succeeds
despite the missing email. The email check sits inside the resolver after
the googleId lookup, not at a boundary before it. -/
theorem c7_theorem (s : Store) (p : Profile) :
    (findOneByGoogleId s p.id = none → p.emails = [] →
       verify s p = Except.error JsError.typeErrorNoEmail) ∧
    (∀ u, findOneByGoogleId s p.id = some u →
       verify s p = Except.ok (s, u)) := by
  constructor
  · intro h1 h2
    unfold verify
    rw [h1, h2]
  · intro u h
    unfold verify
    rw [h]

/-- C7, witness: on the empty store, a login with no email fails with the
caught TypeError. -/
theorem c7_witness :
    verify c7EmptyStore c7MissProfile = Except.error JsError.typeErrorNoEmail :=
  (c7_theorem c7EmptyStore c7MissProfile).1 (by decide) (by decide)

/-- Request for claim C8: no bypass token, a session whose payload points
at an id that no stored user carries. -/
def c8Request : Request :=
  { headerToken := none, queryToken := none, sessionUserId := some 7 }

/-- Store for claim C8: the account was deleted out-of-band. -/
def c8Store : Store := { users := [], nextId := 9 }

/-- C8: when the session payload points at an id with no stored user and
no bypass token is presented, deserializeUser resolves to none (NotFound)
and tokenAuth takes the ordinary unauthenticated rejection — the same 401
body as a missing session — rather than any error path. -/
theorem c8_theorem (s : Store) (r : Request) (i : Nat)
    (h1 : r.sessionUserId = some i)
    (h2 : findById s i = none)
    (h3 : extractToken r ≠ some "test-token-123") :
    deserializeUser_part000 s i = none ∧
    tokenAuth s r = (GateResult.reject 401 tokenAuth401Body, s) := by
  constructor
  · unfold deserializeUser_part000
    exact h2
  · unfold tokenAuth
    rw [if_neg h3]
    unfold sessionUser deserializeUser_part000
    rw [h1]
    dsimp only
    rw [h2]

/-- C8, witness: the stale-session scenario on the concrete deleted
account. -/
theorem c8_witness :
    deserializeUser_part000 c8Store 7 = none ∧
    tokenAuth c8Store c8Request = (GateResult.reject 401 tokenAuth401Body, c8Store) :=
  c8_theorem c8Store c8Request 7 (by decide) (by decide) (by decide)

/-- Request for claim C9: no token, no session. -/
def c9Request : Request :=
  { headerToken := none, queryToken := none, sessionUserId := none }

/-- Store for claim C9. -/
def c9Store : Store := { users := [], nextId := 0 }

/-- C9, counterexample: the tokenAuth gate rejects the unauthenticated
request with 401, but its body carries no loginUrl member at all — the
claimed body shape with a loginUrl does not hold for this gate. -/
theorem c9_counterexample :
    (tokenAuth c9Store c9Request).1 = GateResult.reject 401 tokenAuth401Body ∧
    tokenAuth401Body.lookup "loginUrl" = none := by
  exact ⟨rfl, rfl⟩

/-- C9, amended: a request with neither a decodable session nor a valid
bypass token is short-circuited by both gates with status 401 and a body
containing success false and a message, and the protected handler is
never invoked; the requireAuth body additionally carries
loginUrl /auth/google, while the tokenAuth body carries an options list
with login instructions instead of a loginUrl member. -/
theorem c9_theorem (s : Store) (r : Request)
    (h1 : extractToken r ≠ some "test-token-123")
    (h2 : sessionUser s r = none) :
    tokenAuth s r = (GateResult.reject 401 tokenAuth401Body, s) ∧
    requireAuth s r = (GateResult.reject 401 requireAuth401Body, s) ∧
    tokenAuth401Body.lookup "success" = some (JVal.bool false) ∧
    tokenAuth401Body.lookup "message" =
      some (JVal.str "Authentication required") ∧
    tokenAuth401Body.lookup "loginUrl" = none ∧
    requireAuth401Body.lookup "success" = some (JVal.bool false) ∧
    requireAuth401Body.lookup "message" =
      some (JVal.str "Unauthorized: Please log in to access this resource") ∧
    requireAuth401Body.lookup "loginUrl" = some (JVal.str "/auth/google") := by
  refine ⟨?_, ?_, rfl, rfl, rfl, rfl, rfl, rfl⟩
  · unfold tokenAuth
    rw [if_neg h1, h2]
  · unfold requireAuth
    rw [h2]

/-- C9, witness: the amended theorem on the concrete bare request. -/
theorem c9_witness :
    tokenAuth c9Store c9Request = (GateResult.reject 401 tokenAuth401Body, c9Store) ∧
    requireAuth c9Store c9Request = (GateResult.reject 401 requireAuth401Body, c9Store) :=
  let h := c9_theorem c9Store c9Request (by decide) (by decide)
  ⟨h.1, h.2.1⟩

/-- Request for claim C10: the apiToken query parameter equals the test
token, but the X-API-Token header holds a different non-empty value. -/
def c10Request : Request :=
  { headerToken := some "wrong-token", queryToken := some "test-token-123"
  , sessionUserId := none }

/-- Store for the C10 counterexample. -/
def c10Store : Store := { users := [], nextId := 0 }

/-- Stored identity behind the valid session of the C10 witness. -/
def c10User : User :=
  { id := 0, googleId := some "g1", username := "a", email := "a@x.com"
  , displayName := "Ann", profileImage := "" }

/-- Store for the C10 witness. -/
def c10SessStore : Store := { users := [c10User], nextId := 1 }

/-- Request for the C10 witness: valid bypass header and a valid session
at the same time. -/
def c10SessRequest : Request :=
  { headerToken := some "test-token-123", queryToken := none
  , sessionUserId := some 0 }

/-- C10, counterexample: a request whose apiToken query parameter equals
test-token-123 is nevertheless rejected with 401, because the non-empty
X-API-Token header takes precedence in the JavaScript or-else expression
and its value is wrong — so not every request whose header or query equals
the token is authenticated as the synthetic identity. -/
theorem c10_counterexample :
    c10Request.queryToken = some "test-token-123" ∧
    (tokenAuth c10Store c10Request).1 =
      GateResult.reject 401 tokenAuth401Body := by
  exact ⟨rfl, rfl⟩

/-- C10, amended: the bypass check runs before the session check and uses
the extracted token — the X-API-Token header when non-empty, otherwise the
apiToken query parameter. Whenever that extracted token equals
test-token-123, the gate authenticates the request as the fixed synthetic
identity, even when the request also carries a valid logged-in session,
and the store is returned unchanged (no writes). -/
theorem c10_theorem (s : Store) (r : Request)
    (h : extractToken r = some "test-token-123") :
    tokenAuth s r =
      (GateResult.next
        (GateUser.synthetic "test-user-123" "API Test User" "test@example.com"),
       s) := by
  unfold tokenAuth
  rw [if_pos h]

/-- C10, witness: a request carrying both the bypass header and a valid
session is authenticated as the synthetic identity, not the session user,
and the store is unchanged. -/
theorem c10_witness :
    tokenAuth c10SessStore c10SessRequest =
      (GateResult.next
        (GateUser.synthetic "test-user-123" "API Test User" "test@example.com"),
       c10SessStore) :=
  c10_theorem c10SessStore c10SessRequest (by decide)

end BookApi
